import Mathlib

/-!
Shallow embedding of `src/frontend/src/App.tsx` from the agenterator
repository: a single presentational React component rendering a static
landing page.  The JSX output is modelled as a tree of `Node`s; the render
environment (wall clock, host locale formatting, any external shared state)
is a `World`; a render produces a `Rendered` record carrying the output
tree together with the effect observations a render could make (network
requests, timer registrations, subscriptions) and the world after the
render.
-/

/-- A node of the rendered UI tree: either an element with a tag name, a
`className` attribute, a list of attached event handlers, and children, or
a text node.  In `App.tsx` every element carries only a `className`; no
element has any event handler attached. -/
inductive Node where
  | el (tag : String) (cls : String) (handlers : List String) (children : List Node)
  | text (s : String)

/-- Render environment: the wall-clock time in milliseconds (read by
`new Date()`), the host-locale date formatting function (the behaviour of
`Date.prototype.toLocaleString` with no arguments; `none` models a platform
that cannot produce a formatted date/time string), and any external shared
state a render could in principle read or write. -/
structure World where
  nowMs : Nat
  localeFormat : Nat → Option String
  store : List (String × String)

/-- The observable outcome of one render: the output tree (or an error when
the platform precondition fails), the world after the render, and the lists
of network requests issued, timers registered, and subscriptions/effects
registered during the render. -/
structure Rendered where
  tree : Except String Node
  world : World
  requests : List String
  timers : List Nat
  subscriptions : List String

/-- The JSX tree returned by `App` in `App.tsx` lines 4-106, with the
timestamp string `ts` (the value of `new Date().toLocaleString()` at line
92) filled into the status banner.  Tag names, `className` strings and
text content are taken verbatim from the source; JSX whitespace trimming
is applied to multi-line text. -/
def appTree (ts : String) : Node :=
  .el "div" "min-h-screen bg-gradient-to-br from-blue-50 to-indigo-100" []
    [ -- Navigation (lines 7-26)
      .el "nav" "bg-white shadow-md" []
        [ .el "div" "max-w-7xl mx-auto px-4 sm:px-6 lg:px-8" []
            [ .el "div" "flex justify-between h-16" []
                [ .el "div" "flex items-center" []
                    [ .el "h1" "text-2xl font-bold text-indigo-600" []
                        [ .text "🧠 RAG Platform" ] ],
                  .el "div" "flex items-center space-x-4" []
                    [ .el "button" "text-gray-700 hover:text-indigo-600 px-3 py-2 rounded-md text-sm font-medium" []
                        [ .text "Features" ],
                      .el "button" "text-gray-700 hover:text-indigo-600 px-3 py-2 rounded-md text-sm font-medium" []
                        [ .text "About" ],
                      .el "button" "bg-indigo-600 text-white px-4 py-2 rounded-md text-sm font-medium hover:bg-indigo-700" []
                        [ .text "Get Started" ] ] ] ] ],
      -- Hero section (lines 29-48)
      .el "div" "max-w-7xl mx-auto px-4 sm:px-6 lg:px-8 pt-20 pb-16" []
        [ .el "div" "text-center" []
            [ .el "h2" "text-5xl font-bold text-gray-900 mb-6" []
                [ .text "Transform Your Documents into",
                  .el "span" "text-indigo-600" [] [ .text " AI Agents" ] ],
              .el "p" "text-xl text-gray-600 mb-8 max-w-3xl mx-auto" []
                [ .text "Upload lectures, PDFs, videos, and more to create intelligent AI assistants that understand your content deeply. Perfect for students, researchers, and professionals." ],
              .el "div" "space-x-4" []
                [ .el "button" "bg-indigo-600 text-white px-8 py-3 rounded-lg text-lg font-semibold hover:bg-indigo-700 transform hover:scale-105 transition" []
                    [ .text "Try Demo" ],
                  .el "button" "bg-white text-indigo-600 px-8 py-3 rounded-lg text-lg font-semibold border-2 border-indigo-600 hover:bg-indigo-50" []
                    [ .text "Learn More" ] ] ] ],
      -- Feature cards (lines 51-83)
      .el "div" "max-w-7xl mx-auto px-4 sm:px-6 lg:px-8 py-16" []
        [ .el "h3" "text-3xl font-bold text-center text-gray-900 mb-12" []
            [ .text "Key Features" ],
          .el "div" "grid grid-cols-1 md:grid-cols-3 gap-8" []
            [ .el "div" "bg-white p-6 rounded-lg shadow-md hover:shadow-xl transition" []
                [ .el "div" "text-4xl mb-4" [] [ .text "📄" ],
                  .el "h4" "text-xl font-semibold mb-2" [] [ .text "Multi-Format Support" ],
                  .el "p" "text-gray-600" []
                    [ .text "Process PDFs, videos, PowerPoints, Word docs, and more with our advanced parsers." ] ],
              .el "div" "bg-white p-6 rounded-lg shadow-md hover:shadow-xl transition" []
                [ .el "div" "text-4xl mb-4" [] [ .text "🤖" ],
                  .el "h4" "text-xl font-semibold mb-2" [] [ .text "Intelligent RAG" ],
                  .el "p" "text-gray-600" []
                    [ .text "State-of-the-art retrieval augmented generation for accurate, contextual responses." ] ],
              .el "div" "bg-white p-6 rounded-lg shadow-md hover:shadow-xl transition" []
                [ .el "div" "text-4xl mb-4" [] [ .text "⚡" ],
                  .el "h4" "text-xl font-semibold mb-2" [] [ .text "Real-time Processing" ],
                  .el "p" "text-gray-600" []
                    [ .text "Watch your documents transform into AI agents with live progress updates." ] ] ] ],
      -- Status check (lines 86-95)
      .el "div" "max-w-7xl mx-auto px-4 sm:px-6 lg:px-8 py-8" []
        [ .el "div" "bg-green-50 border border-green-200 rounded-lg p-4 text-center" []
            [ .el "p" "text-green-800 font-semibold" []
                [ .text "✅ Frontend is working! React + Tailwind CSS are properly configured." ],
              .el "p" "text-green-600 text-sm mt-2" []
                [ .text ts, .text " - Development Server Running" ] ] ],
      -- Footer (lines 98-104)
      .el "footer" "bg-gray-800 text-white py-8 mt-16" []
        [ .el "div" "max-w-7xl mx-auto px-4 sm:px-6 lg:px-8 text-center" []
            [ .el "p" "text-gray-400" []
                [ .text "© 2024 RAG Platform. Built with React, FastAPI, and LangChain." ] ] ] ]

/-- The render function `App` of `App.tsx`.  The only computation besides
composing the static tree is `new Date().toLocaleString()` at line 92: it
reads the wall clock (`w.nowMs`) and formats it with the host locale
(`w.localeFormat`); when the platform cannot format a date the render
fails, which is the sole (platform-level) failure path.  The component
issues no network request, registers no timer, effect or subscription, and
leaves the external world unchanged. -/
def App (w : World) : Rendered :=
  { tree :=
      match w.localeFormat w.nowMs with
      | none => .error "platform cannot produce a formatted date/time string"
      | some ts => .ok (appTree ts)
    world := w
    requests := []
    timers := []
    subscriptions := [] }

/-! ## Observation functions on UI trees -/

mutual

/-- Number of nodes in the tree satisfying a Boolean predicate. -/
def countP (p : Node → Bool) : Node → Nat
  | .text s => if p (.text s) then 1 else 0
  | .el t c h cs => (if p (.el t c h cs) then 1 else 0) + countPList p cs

/-- `countP` over a list of sibling trees. -/
def countPList (p : Node → Bool) : List Node → Nat
  | [] => 0
  | n :: ns => countP p n + countPList p ns

end

mutual

/-- Navigate to the subtree at a path of child indices. -/
def getAtPath : Node → List Nat → Option Node
  | n, [] => some n
  | .text _, _ :: _ => none
  | .el _ _ _ cs, i :: p => getAtPathList cs i p

/-- Select the `i`-th sibling and continue along the path. -/
def getAtPathList : List Node → Nat → List Nat → Option Node
  | [], _, _ => none
  | n :: _, 0, p => getAtPath n p
  | _ :: ns, i + 1, p => getAtPathList ns i p

end

mutual

/-- Replace the subtree at a path of child indices with `r` (the tree is
unchanged when the path points outside it). -/
def replaceAt : Node → List Nat → Node → Node
  | _, [], r => r
  | .text s, _ :: _, _ => .text s
  | .el t c h cs, i :: p, r => .el t c h (replaceAtList cs i p r)

/-- `replaceAt` on the `i`-th sibling. -/
def replaceAtList : List Node → Nat → List Nat → Node → List Node
  | [], _, _, _ => []
  | n :: ns, 0, p, r => replaceAt n p r :: ns
  | n :: ns, i + 1, p, r => n :: replaceAtList ns i p r

end

mutual

/-- All `button` elements of the tree, in document order. -/
def collectButtons : Node → List Node
  | .text _ => []
  | .el t c h cs =>
      (if t == "button" then [Node.el t c h cs] else []) ++ collectButtonsList cs

/-- `collectButtons` over sibling trees. -/
def collectButtonsList : List Node → List Node
  | [] => []
  | n :: ns => collectButtons n ++ collectButtonsList ns

end

mutual

/-- Concatenated text content of a tree (as the DOM `textContent`). -/
def textContent : Node → String
  | .text s => s
  | .el _ _ _ cs => textContentList cs

/-- `textContent` over sibling trees. -/
def textContentList : List Node → String
  | [] => ""
  | n :: ns => textContent n ++ textContentList ns

end

mutual

/-- The shape of a tree: the same tree with the content of every text node
erased, keeping tags, classes, handlers and the child structure. -/
def shape : Node → Node
  | .text _ => .text ""
  | .el t c h cs => .el t c h (shapeList cs)

/-- `shape` over sibling trees. -/
def shapeList : List Node → List Node
  | [] => []
  | n :: ns => shape n :: shapeList ns

end

/-- The event handlers attached to a node. -/
def handlersOf : Node → List String
  | .text _ => []
  | .el _ _ h _ => h

/-- The tag of a node, if it is an element. -/
def tagOf : Node → Option String
  | .text _ => none
  | .el t _ _ _ => some t

/-- The `className` of a node, if it is an element. -/
def classOf : Node → Option String
  | .text _ => none
  | .el _ c _ _ => some c

/-- Is the node the navigation region (`<nav>`)? -/
def isNav (n : Node) : Bool := tagOf n == some "nav"

/-- Is the node the footer region (`<footer>`)? -/
def isFooter (n : Node) : Bool := tagOf n == some "footer"

/-- Is the node the hero region (the container `div` of lines 29-48)? -/
def isHero (n : Node) : Bool :=
  classOf n == some "max-w-7xl mx-auto px-4 sm:px-6 lg:px-8 pt-20 pb-16"

/-- Is the node the feature grid (the `div` of line 55)? -/
def isFeatureGrid (n : Node) : Bool :=
  classOf n == some "grid grid-cols-1 md:grid-cols-3 gap-8"

/-- Is the node a feature card (the `div`s of lines 57, 66, 75)? -/
def isFeatureCard (n : Node) : Bool :=
  classOf n == some "bg-white p-6 rounded-lg shadow-md hover:shadow-xl transition"

/-- Is the node the status banner (the green `div` of line 87)? -/
def isStatusBanner (n : Node) : Bool :=
  classOf n == some "bg-green-50 border border-green-200 rounded-lg p-4 text-center"

/-- Path from the root to the text node holding the formatted timestamp:
status region (root child 3), banner `div`, second `p`, first text child. -/
def stampPath : List Nat := [3, 0, 1, 0]

/-- The status banner's displayed line: the text content of the second `p`
of the banner (timestamp text followed by " - Development Server Running"). -/
def statusLine (t : Node) : Option String :=
  (getAtPath t [3, 0, 1]).map textContent

/-- The footer's displayed line. -/
def footerLine (t : Node) : Option String :=
  (getAtPath t [4, 0, 0]).map textContent

/-- The children of a node. -/
def childrenOf : Node → List Node
  | .text _ => []
  | .el _ _ _ cs => cs

/-! ## A minimal post-render transition system (for the timer claim)

After a render the browser holds the produced tree and whatever timers the
render registered.  Wall-clock time passing is a `tick`: if timers are
pending the earliest one fires and triggers a re-render at the new time;
with no timers the tree is left untouched. -/

/-- Browser state between renders: current world, displayed tree, pending
timers. -/
structure UiState where
  world : World
  tree : Except String Node
  timers : List Nat

/-- The state right after an initial render at world `w`. -/
def renderInit (w : World) : UiState :=
  { world := w, tree := (App w).tree, timers := (App w).timers }

/-- Let `dt` milliseconds pass.  A pending timer fires and re-renders at
the advanced clock; with no pending timer the displayed tree stays what the
most recent render produced. -/
def tick (st : UiState) (dt : Nat) : UiState :=
  let w : World := { st.world with nowMs := st.world.nowMs + dt }
  match st.timers with
  | [] => { st with world := w }
  | _ :: rest =>
      { world := w, tree := (App w).tree, timers := rest ++ (App w).timers }

/-! ## Concrete render environments used as witnesses -/

/-- A formatted timestamp as a `en-US` host would produce it. -/
def tsA : String := "1/1/2024, 12:00:00 AM"

/-- The same instant as `tsA` formatted by a different host locale. -/
def tsB : String := "2024/1/1 0:00:00"

/-- A timestamp one second after `tsA`, same locale. -/
def tsC : String := "1/1/2024, 12:00:01 AM"

/-- World at midnight 2024-01-01 UTC with an `en-US`-style formatter. -/
def WA : World :=
  { nowMs := 1704067200000, localeFormat := fun _ => some tsA, store := [] }

/-- Same instant as `WA`, different host locale. -/
def WB : World :=
  { nowMs := 1704067200000, localeFormat := fun _ => some tsB, store := [] }

/-- One second after `WA`, same locale as `WA`. -/
def WC : World :=
  { nowMs := 1704067201000, localeFormat := fun _ => some tsC, store := [] }

/-- Same as `WA` but with nonempty external shared state. -/
def WAstore : World :=
  { nowMs := 1704067200000, localeFormat := fun _ => some tsA,
    store := [("session", "abc")] }


/-! ## Helper lemmas -/

/-- A successful render is exactly the static tree with the formatted
current time filled into the status banner. -/
theorem App_tree_ok {w : World} {t : Node} (h : (App w).tree = Except.ok t) :
    ∃ ts, w.localeFormat w.nowMs = some ts ∧ t = appTree ts := by
  have h' : (match w.localeFormat w.nowMs with
      | none => (Except.error "platform cannot produce a formatted date/time string" :
          Except String Node)
      | some ts => Except.ok (appTree ts)) = Except.ok t := h
  cases hf : w.localeFormat w.nowMs with
  | none => rw [hf] at h'; exact absurd h' (by simp)
  | some ts => rw [hf] at h'; exact ⟨ts, rfl, (Except.ok.inj h').symm⟩

/-! ## Claims -/

/-- Claim C1: rendering the landing view (the `App` component) always
produces exactly one navigation region, one hero region, a feature grid
containing exactly three feature cards, one status banner and one footer,
and these five regions are the children of the root, in that fixed
vertical order. -/
theorem appRendersFiveRegions (w : World) (t : Node)
    (h : (App w).tree = Except.ok t) :
    (countP isNav t = 1 ∧ countP isHero t = 1 ∧ countP isFeatureGrid t = 1 ∧
     countP isFeatureCard t = 3 ∧ countP isStatusBanner t = 1 ∧
     countP isFooter t = 1) ∧
    (∃ nv hr ftr st fo,
      t = .el "div" "min-h-screen bg-gradient-to-br from-blue-50 to-indigo-100" []
            [nv, hr, ftr, st, fo] ∧
      isNav nv = true ∧ isHero hr = true ∧
      (∃ cards : List Node,
        getAtPath ftr [1]
          = some (.el "div" "grid grid-cols-1 md:grid-cols-3 gap-8" [] cards) ∧
        cards.length = 3 ∧ cards.all isFeatureCard = true) ∧
      (getAtPath st [0]).map isStatusBanner = some true ∧
      isFooter fo = true) := by
  obtain ⟨ts, _, rfl⟩ := App_tree_ok h
  exact ⟨⟨rfl, rfl, rfl, rfl, rfl, rfl⟩,
    ⟨_, _, _, _, _, rfl, rfl, rfl, ⟨_, rfl, rfl, rfl⟩, rfl, rfl⟩⟩

/-- Claim C1 witness: at the concrete world `WA` the render succeeds and
the region counts hold. -/
theorem appRendersFiveRegions_witness :
    (App WA).tree = Except.ok (appTree tsA) ∧
    countP isNav (appTree tsA) = 1 ∧ countP isFeatureCard (appTree tsA) = 3 :=
  ⟨rfl, (appRendersFiveRegions WA (appTree tsA) rfl).1.1,
    (appRendersFiveRegions WA (appTree tsA) rfl).1.2.2.2.1⟩

/-- Claim C2: the `App` component reads no props and no external state
other than the clock and the host locale, and its output tree has the same
shape (tags, classes, handlers and child structure) on every render: any
two successful renders agree after erasing text content. -/
theorem appShapeConstant (w1 w2 : World) (t1 t2 : Node)
    (h1 : (App w1).tree = Except.ok t1) (h2 : (App w2).tree = Except.ok t2) :
    shape t1 = shape t2 := by
  obtain ⟨ts1, _, rfl⟩ := App_tree_ok h1
  obtain ⟨ts2, _, rfl⟩ := App_tree_ok h2
  rfl

/-- Claim C2 witness: two renders at different times and locales have the
same output shape. -/
theorem appShapeConstant_witness :
    (App WA).tree = Except.ok (appTree tsA) ∧
    (App WC).tree = Except.ok (appTree tsC) ∧
    shape (appTree tsA) = shape (appTree tsC) :=
  ⟨rfl, rfl, appShapeConstant WA WC (appTree tsA) (appTree tsC) rfl rfl⟩

/-- Claim C3: the status banner displays the formatted representation of
the wall-clock time read at render, followed by " - Development Server
Running"; it is not a hard-coded literal, and two renders whose formatted
times differ display different status lines. -/
theorem statusLineShowsRenderTime (w1 w2 : World) (ts1 ts2 : String)
    (t1 t2 : Node)
    (hf1 : w1.localeFormat w1.nowMs = some ts1)
    (h1 : (App w1).tree = Except.ok t1)
    (hf2 : w2.localeFormat w2.nowMs = some ts2)
    (h2 : (App w2).tree = Except.ok t2)
    (hne : ts1 ≠ ts2) :
    getAtPath t1 stampPath = some (.text ts1) ∧
    statusLine t1 = some (ts1 ++ " - Development Server Running") ∧
    getAtPath t2 stampPath = some (.text ts2) ∧
    statusLine t2 = some (ts2 ++ " - Development Server Running") ∧
    getAtPath t1 stampPath ≠ getAtPath t2 stampPath := by
  obtain ⟨u1, hu1, rfl⟩ := App_tree_ok h1
  obtain ⟨u2, hu2, rfl⟩ := App_tree_ok h2
  have e1 : ts1 = u1 := Option.some.inj (hf1.symm.trans hu1)
  have e2 : ts2 = u2 := Option.some.inj (hf2.symm.trans hu2)
  subst e1
  subst e2
  refine ⟨rfl, rfl, rfl, rfl, fun heq => hne ?_⟩
  have h0 : some (Node.text ts1) = some (Node.text ts2) := by
    calc some (Node.text ts1) = getAtPath (appTree ts1) stampPath := rfl
    _ = getAtPath (appTree ts2) stampPath := heq
    _ = some (Node.text ts2) := rfl
  exact Node.text.inj (Option.some.inj h0)

/-- Claim C3 witness: renders one second apart (worlds `WA`, `WC`) show
the two formatted times, and the displayed timestamp nodes differ. -/
theorem statusLineShowsRenderTime_witness :
    statusLine (appTree tsA) = some (tsA ++ " - Development Server Running") ∧
    getAtPath (appTree tsA) stampPath ≠ getAtPath (appTree tsC) stampPath :=
  ⟨(statusLineShowsRenderTime WA WC tsA tsC (appTree tsA) (appTree tsC)
      rfl rfl rfl rfl (by decide)).2.1,
   (statusLineShowsRenderTime WA WC tsA tsC (appTree tsA) (appTree tsC)
      rfl rfl rfl rfl (by decide)).2.2.2.2⟩

/-- Claim C4: re-rendering is idempotent modulo the timestamp: any two
successful renders produce identical trees once the timestamp text node in
the status banner is overwritten by a fixed placeholder. -/
theorem appRenderIdempotentModuloStamp (w1 w2 : World) (t1 t2 : Node)
    (h1 : (App w1).tree = Except.ok t1) (h2 : (App w2).tree = Except.ok t2) :
    replaceAt t1 stampPath (.text "") = replaceAt t2 stampPath (.text "") := by
  obtain ⟨ts1, _, rfl⟩ := App_tree_ok h1
  obtain ⟨ts2, _, rfl⟩ := App_tree_ok h2
  rfl

/-- Claim C4 witness: renders under different locales at the same instant
agree after masking the timestamp node. -/
theorem appRenderIdempotentModuloStamp_witness :
    replaceAt (appTree tsA) stampPath (.text "")
      = replaceAt (appTree tsB) stampPath (.text "") :=
  appRenderIdempotentModuloStamp WA WB (appTree tsA) (appTree tsB) rfl rfl

/-- Claim C5: a render has no side effects beyond its output: it issues no
network request, leaves the external world (including the shared store)
unchanged, and reads nothing from the world except the wall clock and the
host-locale formatter — two worlds agreeing on those yield the same tree. -/
theorem appRenderNoSideEffects (w w' : World)
    (hn : w.nowMs = w'.nowMs) (hf : w.localeFormat = w'.localeFormat) :
    (App w).world = w ∧ (App w).requests = [] ∧
    (App w).tree = (App w').tree := by
  refine ⟨rfl, rfl, ?_⟩
  show (match w.localeFormat w.nowMs with
    | none => (Except.error "platform cannot produce a formatted date/time string" :
        Except String Node)
    | some ts => Except.ok (appTree ts)) = _
  rw [hf, hn]
  rfl

/-- Claim C5 witness: a render at `WA` and at the same world with a
different external store issue no requests, leave the world alone and
produce the same tree. -/
theorem appRenderNoSideEffects_witness :
    (App WA).world = WA ∧ (App WA).requests = [] ∧
    (App WA).tree = (App WAstore).tree :=
  appRenderNoSideEffects WA WAstore rfl rfl

/-- Claim C6: rendering is total: whenever the platform can produce a
formatted date/time string for the current instant, the render returns a
complete tree of all 63 nodes, with no error and no partial output. -/
theorem appRenderTotal (w : World)
    (h : (w.localeFormat w.nowMs).isSome = true) :
    ∃ t, (App w).tree = Except.ok t ∧ countP (fun _ => true) t = 63 := by
  cases hf : w.localeFormat w.nowMs with
  | none => rw [hf] at h; exact absurd h (by simp)
  | some ts =>
      refine ⟨appTree ts, ?_, rfl⟩
      show (match w.localeFormat w.nowMs with
        | none => (Except.error
            "platform cannot produce a formatted date/time string" :
            Except String Node)
        | some ts => Except.ok (appTree ts)) = _
      rw [hf]

/-- Claim C6 witness: the platform precondition holds at `WA` and the
render yields the full 63-node tree. -/
theorem appRenderTotal_witness :
    ∃ t, (App WA).tree = Except.ok t ∧ countP (fun _ => true) t = 63 :=
  appRenderTotal WA rfl

/-- With no pending timers, any sequence of clock ticks leaves the
displayed tree untouched. -/
theorem foldl_tick_of_noTimers (dts : List Nat) :
    ∀ st : UiState, st.timers = [] → (dts.foldl tick st).tree = st.tree := by
  induction dts with
  | nil => intro st _; rfl
  | cons d rest ih =>
      intro st h
      rw [List.foldl_cons]
      have h1 : (tick st d).timers = [] := by simp [tick, h]
      have h2 : (tick st d).tree = st.tree := by simp [tick, h]
      rw [ih _ h1, h2]

/-- Claim C7: the component registers no timer, effect or subscription
that could trigger a re-render, so between two explicit renders the
displayed tree — and with it the status banner's timestamp — stays exactly
what the most recent render produced, however much wall-clock time
passes. -/
theorem noTimerUpdatesBetweenRenders (w : World) (dts : List Nat) :
    (App w).timers = [] ∧ (App w).subscriptions = [] ∧
    (dts.foldl tick (renderInit w)).tree = (App w).tree :=
  ⟨rfl, rfl, foldl_tick_of_noTimers dts (renderInit w) rfl⟩

/-- Claim C8: every interactive element is inert: the rendered tree has
exactly the five buttons "Features", "About", "Get Started", "Try Demo",
"Learn More", in document order, and none of them carries any event
handler. -/
theorem appButtonsInert (w : World) (t : Node)
    (h : (App w).tree = Except.ok t) :
    (collectButtons t).map textContent
      = ["Features", "About", "Get Started", "Try Demo", "Learn More"] ∧
    (collectButtons t).map handlersOf = [[], [], [], [], []] := by
  obtain ⟨ts, _, rfl⟩ := App_tree_ok h
  exact ⟨rfl, rfl⟩

/-- Claim C8 witness: the five inert buttons of the render at `WA`. -/
theorem appButtonsInert_witness :
    (App WA).tree = Except.ok (appTree tsA) ∧
    (collectButtons (appTree tsA)).map handlersOf = [[], [], [], [], []] :=
  ⟨rfl, (appButtonsInert WA (appTree tsA) rfl).2⟩

/-- Claim C9: the footer's year is the fixed literal "2024": whatever the
wall-clock time and locale at render, the footer line is exactly
"© 2024 RAG Platform. Built with React, FastAPI, and LangChain.". -/
theorem footerYearFixed (w : World) (t : Node)
    (h : (App w).tree = Except.ok t) :
    footerLine t
      = some "© 2024 RAG Platform. Built with React, FastAPI, and LangChain." ∧
    getAtPath t [4, 0, 0, 0]
      = some (.text
          "© 2024 RAG Platform. Built with React, FastAPI, and LangChain.") := by
  obtain ⟨ts, _, rfl⟩ := App_tree_ok h
  exact ⟨rfl, rfl⟩

/-- Claim C9 witness: the fixed footer line at the one-second-later world
`WC`. -/
theorem footerYearFixed_witness :
    (App WC).tree = Except.ok (appTree tsC) ∧
    footerLine (appTree tsC)
      = some "© 2024 RAG Platform. Built with React, FastAPI, and LangChain." :=
  ⟨rfl, (footerYearFixed WC (appTree tsC) rfl).1⟩

/-- Claim C10: the timestamp text depends on the host locale, not only on
the clock: renders at the same instant whose locale formatters agree on
that instant produce identical trees, while there are renders at the same
instant under different locales whose trees — and status banner texts —
differ. -/
theorem stampLocaleSensitive (w1 w2 : World)
    (hn : w1.nowMs = w2.nowMs)
    (hf : w1.localeFormat w1.nowMs = w2.localeFormat w2.nowMs) :
    (App w1).tree = (App w2).tree ∧
    ∃ v1 v2 : World, v1.nowMs = v2.nowMs ∧
      (App v1).tree ≠ (App v2).tree ∧
      ((App v1).tree.toOption.bind statusLine)
        ≠ ((App v2).tree.toOption.bind statusLine) := by
  constructor
  · show (match w1.localeFormat w1.nowMs with
      | none => (Except.error
          "platform cannot produce a formatted date/time string" :
          Except String Node)
      | some ts => Except.ok (appTree ts)) = _
    rw [hf]
    rfl
  · have h3 : ((App WA).tree.toOption.bind statusLine)
        ≠ ((App WB).tree.toOption.bind statusLine) := by decide
    exact ⟨WA, WB, rfl, fun heq => h3 (by rw [heq]), h3⟩

/-- Claim C10 witness: instantiating at the pair `WA`, `WA`. -/
theorem stampLocaleSensitive_witness :
    (App WA).tree = (App WA).tree ∧
    ∃ v1 v2 : World, v1.nowMs = v2.nowMs ∧
      (App v1).tree ≠ (App v2).tree ∧
      ((App v1).tree.toOption.bind statusLine)
        ≠ ((App v2).tree.toOption.bind statusLine) :=
  stampLocaleSensitive WA WA rfl rfl
